import Mathlib

/-!
Shallow embedding of the TriWare medical-device integration layer:
the blood-pressure reading codec and device manager from
`backend/app/devices/ble_manager.py`, and the calibration procedures,
ledger and health monitor from `backend/app/devices/calibration.py`.

Modelling conventions: Python floats are rationals, datetimes are
integers (days for calibration, hours for health metrics, as noted at
each definition), Python dictionaries are association lists with
first-key-wins lookup and in-place update.
-/

namespace TriWare

/-- `DeviceType` enum from `ble_manager.py`. -/
inductive DeviceType where
  | blood_pressure
  | pulse_oximeter
  | thermometer
  | weight_scale
  | height_meter
  | glucose_meter
  deriving DecidableEq

/-- `DeviceStatus` enum from `ble_manager.py`. -/
inductive DeviceStatus where
  | disconnected
  | connecting
  | connected
  | reading
  | error
  | calibrating
  deriving DecidableEq

/-- Association-list lookup with Python-dict semantics (first match). -/
def lookupTable {α : Type} : List (String × α) → String → Option α
  | [], _ => none
  | (k2, v) :: rest, k => if k2 = k then some v else lookupTable rest k

/-- Association-list update with Python-dict semantics: an existing key
keeps its position, a new key is appended at the end. -/
def updateTable {α : Type} : List (String × α) → String → α → List (String × α)
  | [], k, v => [(k, v)]
  | (k2, v2) :: rest, k, v =>
      if k2 = k then (k2, v) :: rest else (k2, v2) :: updateTable rest k v

theorem lookupTable_updateTable_self {α : Type} (tbl : List (String × α)) (k : String) (v : α) :
    lookupTable (updateTable tbl k v) k = some v := by
  induction tbl with
  | nil => simp [updateTable, lookupTable]
  | cons p rest ih =>
      obtain ⟨k2, v2⟩ := p
      by_cases hk : k2 = k
      · simp [updateTable, lookupTable, hk]
      · simp [updateTable, lookupTable, hk, ih]

theorem lookupTable_updateTable_other {α : Type} (tbl : List (String × α)) (k k3 : String)
    (v : α) (h : k3 ≠ k) : lookupTable (updateTable tbl k v) k3 = lookupTable tbl k3 := by
  induction tbl with
  | nil =>
      simp only [updateTable, lookupTable]
      rw [if_neg (Ne.symm h)]
  | cons p rest ih =>
      obtain ⟨k2, v2⟩ := p
      by_cases hk : k2 = k
      · have hk3 : ¬ k2 = k3 := fun hx => h (hx.symm.trans hk)
        simp only [updateTable, if_pos hk, lookupTable, if_neg hk3]
      · by_cases hk3 : k2 = k3
        · simp only [updateTable, if_neg hk, lookupTable, if_pos hk3]
        · simp only [updateTable, if_neg hk, lookupTable, if_neg hk3, ih]

/-- Little-endian unsigned 16-bit decode: `struct.unpack('<H', bytes)`. -/
def u16le (b0 b1 : Nat) : Nat := b0 + 256 * b1

/-- `BloodPressureDriver._calculate_quality_score`. -/
def calculate_quality_score (systolic diastolic : ℚ) : ℚ :=
  if ¬(50 ≤ systolic ∧ systolic ≤ 250) ∨ ¬(30 ≤ diastolic ∧ diastolic ≤ 150) then 3/10
  else if systolic ≤ diastolic then 4/10
  else if systolic - diastolic < 20 ∨ 100 < systolic - diastolic then 6/10
  else 9/10

/-- The decoded fields of one blood-pressure notification
(`DeviceReading.values` plus `unit` and `quality_score`). -/
structure BPReading where
  systolic : ℚ
  diastolic : ℚ
  mean_pressure : ℚ
  pulse_rate : Option Nat
  unit : String
  quality_score : ℚ
  deriving DecidableEq

/-- Body of `BloodPressureDriver._handle_bp_measurement` once the seven
mandatory bytes (flags plus three u16 fields) are present; `rest` is
`data[7:]`.  Any parse exception (a short pulse-rate slice) yields
`none`: the reading is dropped. -/
def decode_bp_fields (flags s0 s1 d0 d1 m0 m1 : Nat) (rest : List Nat) : Option BPReading :=
  let unit_kpa : Bool := (flags &&& 1) != 0
  let unitStr : String := if unit_kpa then "kPa" else "mmHg"
  let systolic : ℚ := if unit_kpa then (u16le s0 s1 : ℚ) / 1000 else (u16le s0 s1 : ℚ)
  let diastolic : ℚ := if unit_kpa then (u16le d0 d1 : ℚ) / 1000 else (u16le d0 d1 : ℚ)
  let mean_pressure : ℚ := if unit_kpa then (u16le m0 m1 : ℚ) / 1000 else (u16le m0 m1 : ℚ)
  let timestamp_present : Bool := (flags &&& 2) != 0
  let pulse_rate_present : Bool := (flags &&& 4) != 0
  let pulse_idx : Nat := if timestamp_present then 7 else 0
  let base : BPReading :=
    { systolic := systolic, diastolic := diastolic, mean_pressure := mean_pressure,
      pulse_rate := none, unit := unitStr,
      quality_score := calculate_quality_score systolic diastolic }
  if pulse_rate_present then
    if pulse_idx < rest.length then
      if pulse_idx + 2 ≤ rest.length then
        some { base with
               pulse_rate := some (u16le (rest.getD pulse_idx 0) (rest.getD (pulse_idx + 1) 0)) }
      else none
    else some base
  else some base

/-- `BloodPressureDriver._handle_bp_measurement`: a buffer too short for
the mandatory fields raises inside the handler and the reading is
dropped (`none`). -/
def handle_bp_measurement : List Nat → Option BPReading
  | flags :: s0 :: s1 :: d0 :: d1 :: m0 :: m1 :: rest =>
      decode_bp_fields flags s0 s1 d0 d1 m0 m1 rest
  | _ => none

theorem decode_bp_fields_eq (flags s0 s1 d0 d1 m0 m1 : Nat) (rest : List Nat)
    (r : BPReading) (h : decode_bp_fields flags s0 s1 d0 d1 m0 m1 rest = some r) :
    r.systolic = (if (flags &&& 1) != 0 then (u16le s0 s1 : ℚ) / 1000 else (u16le s0 s1 : ℚ)) ∧
    r.diastolic = (if (flags &&& 1) != 0 then (u16le d0 d1 : ℚ) / 1000 else (u16le d0 d1 : ℚ)) ∧
    r.mean_pressure =
      (if (flags &&& 1) != 0 then (u16le m0 m1 : ℚ) / 1000 else (u16le m0 m1 : ℚ)) ∧
    r.unit = (if (flags &&& 1) != 0 then "kPa" else "mmHg") ∧
    r.quality_score = calculate_quality_score r.systolic r.diastolic := by
  simp only [decode_bp_fields] at h
  repeat' split at h
  all_goals
    first
      | exact Option.noConfusion h
      | (injection h with h; subst h; refine ⟨?_, ?_, ?_, ?_, ?_⟩ <;> simp_all)

theorem calculate_quality_score_cases (s d : ℚ) :
    calculate_quality_score s d =
      if s < 50 ∨ 250 < s ∨ d < 30 ∨ 150 < d then 3/10
      else if s ≤ d then 4/10
      else if s - d < 20 ∨ 100 < s - d then 6/10
      else 9/10 := by
  unfold calculate_quality_score
  have hiff : (¬(50 ≤ s ∧ s ≤ 250) ∨ ¬(30 ≤ d ∧ d ≤ 150)) ↔
      (s < 50 ∨ 250 < s ∨ d < 30 ∨ 150 < d) := by
    simp only [not_and_or, not_le]
    tauto
  exact if_congr hiff rfl rfl

/-- C1: for every payload the blood-pressure codec accepts, the decoded
quality score is 0.3 when systolic is outside [50,250] or diastolic is
outside [30,150]; else 0.4 when systolic ≤ diastolic; else 0.6 when the
pulse pressure is below 20 or above 100; else 0.9.  In particular every
fully physiological reading scores 0.9. -/
theorem bp_quality_score_spec (data : List Nat) (r : BPReading)
    (h : handle_bp_measurement data = some r) :
    r.quality_score =
      (if r.systolic < 50 ∨ 250 < r.systolic ∨ r.diastolic < 30 ∨ 150 < r.diastolic then 3/10
       else if r.systolic ≤ r.diastolic then 4/10
       else if r.systolic - r.diastolic < 20 ∨ 100 < r.systolic - r.diastolic then 6/10
       else (9 : ℚ)/10) ∧
    (50 ≤ r.systolic → r.systolic ≤ 250 → 30 ≤ r.diastolic → r.diastolic ≤ 150 →
      r.diastolic < r.systolic →
      20 ≤ r.systolic - r.diastolic → r.systolic - r.diastolic ≤ 100 →
      r.quality_score = 9/10) := by
  have hq : r.quality_score = calculate_quality_score r.systolic r.diastolic := by
    match data with
    | flags :: s0 :: s1 :: d0 :: d1 :: m0 :: m1 :: rest =>
        exact (decode_bp_fields_eq flags s0 s1 d0 d1 m0 m1 rest r h).2.2.2.2
    | [] => exact Option.noConfusion h
    | [a] => exact Option.noConfusion h
    | [a, b] => exact Option.noConfusion h
    | [a, b, c] => exact Option.noConfusion h
    | [a, b, c, e] => exact Option.noConfusion h
    | [a, b, c, e, f] => exact Option.noConfusion h
    | [a, b, c, e, f, g] => exact Option.noConfusion h
  constructor
  · rw [hq, calculate_quality_score_cases]
  · intro h1 h2 h3 h4 h5 h6 h7
    rw [hq, calculate_quality_score_cases]
    rw [if_neg (by push_neg; exact ⟨h1, h2, h3, h4⟩)]
    rw [if_neg (not_le.mpr h5)]
    rw [if_neg (by push_neg; exact ⟨h6, h7⟩)]

/-- A plain mmHg payload: flags 0, systolic 120, diastolic 80, mean 93. -/
def bpSample : List Nat := [0, 120, 0, 80, 0, 93, 0]

def bpSampleReading : BPReading :=
  { systolic := 120, diastolic := 80, mean_pressure := 93, pulse_rate := none,
    unit := "mmHg", quality_score := 9/10 }

theorem bp_quality_score_spec_witness :
    handle_bp_measurement bpSample = some bpSampleReading ∧
    bpSampleReading.quality_score = 9/10 := by
  have h : handle_bp_measurement bpSample = some bpSampleReading := by
    norm_num [bpSample, bpSampleReading, handle_bp_measurement, decode_bp_fields, u16le,
      calculate_quality_score]
  refine ⟨h, ?_⟩
  exact (bp_quality_score_spec bpSample bpSampleReading h).2
    (by norm_num [bpSampleReading]) (by norm_num [bpSampleReading])
    (by norm_num [bpSampleReading]) (by norm_num [bpSampleReading])
    (by norm_num [bpSampleReading]) (by norm_num [bpSampleReading])
    (by norm_num [bpSampleReading])

/-- C5: a kPa-flagged payload (flags bit 0) has its raw little-endian u16
systolic, diastolic and mean-pressure values divided by 1000, while an
mmHg-flagged payload's values are used as-is. -/
theorem bp_kpa_scaling (flags s0 s1 d0 d1 m0 m1 : Nat) (rest : List Nat) (r : BPReading)
    (h : handle_bp_measurement (flags :: s0 :: s1 :: d0 :: d1 :: m0 :: m1 :: rest) = some r) :
    (flags &&& 1 ≠ 0 →
      r.systolic = (u16le s0 s1 : ℚ) / 1000 ∧
      r.diastolic = (u16le d0 d1 : ℚ) / 1000 ∧
      r.mean_pressure = (u16le m0 m1 : ℚ) / 1000 ∧
      r.unit = "kPa") ∧
    (flags &&& 1 = 0 →
      r.systolic = (u16le s0 s1 : ℚ) ∧
      r.diastolic = (u16le d0 d1 : ℚ) ∧
      r.mean_pressure = (u16le m0 m1 : ℚ) ∧
      r.unit = "mmHg") := by
  obtain ⟨hs, hd, hm, hu, _⟩ := decode_bp_fields_eq flags s0 s1 d0 d1 m0 m1 rest r h
  constructor
  · intro hne
    have hb : ((flags &&& 1) != 0) = true := by simpa using hne
    exact ⟨by rw [hs, if_pos hb], by rw [hd, if_pos hb],
      by rw [hm, if_pos hb], by rw [hu, if_pos hb]⟩
  · intro heq
    have hb : ¬ (((flags &&& 1) != 0) = true) := by simpa using heq
    exact ⟨by rw [hs, if_neg hb], by rw [hd, if_neg hb],
      by rw [hm, if_neg hb], by rw [hu, if_neg hb]⟩

/-- A kPa payload with each raw u16 value equal to 16000. -/
def bpKpaSample : List Nat := [1, 128, 62, 128, 62, 128, 62]

def bpKpaReading : BPReading :=
  { systolic := 16, diastolic := 16, mean_pressure := 16, pulse_rate := none,
    unit := "kPa", quality_score := 3/10 }

theorem bp_kpa_scaling_witness :
    handle_bp_measurement bpKpaSample = some bpKpaReading ∧
    bpKpaReading.systolic = 16 ∧ bpKpaReading.unit = "kPa" := by
  have h : handle_bp_measurement bpKpaSample = some bpKpaReading := by
    norm_num [bpKpaSample, bpKpaReading, handle_bp_measurement, decode_bp_fields, u16le,
      calculate_quality_score]
  have hk := (bp_kpa_scaling 1 128 62 128 62 128 62 [] bpKpaReading h).1 (by decide)
  refine ⟨h, ?_, hk.2.2.2⟩
  rw [hk.1]
  norm_num [u16le]

/-- `CalibrationStatus` enum from `calibration.py`. -/
inductive CalibrationStatus where
  | unknown
  | calibrated
  | needs_calibration
  | calibrating
  | calibration_failed
  | out_of_spec
  deriving DecidableEq

/-- `CalibrationRecord` dataclass; datetimes are integer days. -/
structure CalibrationRecord where
  device_id : String
  calibration_date : ℤ
  calibration_type : String
  reference_values : List (String × ℚ)
  measured_values : List (String × ℚ)
  deviation_values : List (String × ℚ)
  status : CalibrationStatus
  technician_id : Option String := none
  notes : Option String := none
  next_calibration_due : Option ℤ := none
  certificate_number : Option String := none
  deriving DecidableEq

/-- One entry of `DeviceManager.devices`: the driver state the calibrator
and health monitor read through the manager. -/
structure DriverEntry where
  device_type : DeviceType
  status : DeviceStatus
  deriving DecidableEq

/-- `DeviceCalibrator.calibration_intervals` (days); device types absent
from the dict have no entry. -/
def calibration_intervals : DeviceType → Option ℤ
  | .blood_pressure => some 365
  | .pulse_oximeter => some 180
  | .thermometer => some 90
  | .weight_scale => some 180
  | .glucose_meter => some 90
  | .height_meter => none

/-- `max(records, key=lambda r: r.calibration_date)` over `r :: rs`:
Python `max` keeps the first maximal element. -/
def latest_record (r : CalibrationRecord) (rs : List CalibrationRecord) : CalibrationRecord :=
  rs.foldl (fun best x => if best.calibration_date < x.calibration_date then x else best) r

/-- `DeviceCalibrator.check_calibration_status`.  `now` is the current
day.  Mirrors the source: missing dict key → unknown; empty record list
→ needs_calibration; device absent from the manager table → unknown;
more days than the device-type interval (default 180) since the latest
record → needs_calibration; otherwise the latest record's status. -/
def check_calibration_status
    (calibration_records : List (String × List CalibrationRecord))
    (devices : List (String × DriverEntry)) (device_id : String) (now : ℤ) :
    CalibrationStatus :=
  match lookupTable calibration_records device_id with
  | none => .unknown
  | some [] => .needs_calibration
  | some (r :: rs) =>
    let latest := latest_record r rs
    match lookupTable devices device_id with
    | none => .unknown
    | some dev =>
      let interval_days := (calibration_intervals dev.device_type).getD 180
      let days_since := now - latest.calibration_date
      if interval_days < days_since then .needs_calibration
      else latest.status

def c4Record : CalibrationRecord :=
  { device_id := "bp-1", calibration_date := 90, calibration_type := "user",
    reference_values := [], measured_values := [], deviation_values := [],
    status := .calibrated }

/-- C4 counterexample: device "bp-1" has a single ten-day-old record with
status calibrated, but is absent from the manager's device table (it was
disconnected); the claim predicts the record's status, the code returns
unknown. -/
theorem check_calibration_status_counterexample :
    check_calibration_status [("bp-1", [c4Record])] [] "bp-1" 100 = .unknown ∧
    c4Record.status = .calibrated ∧
    (100 : ℤ) - c4Record.calibration_date = 10 ∧
    check_calibration_status [("bp-1", [c4Record])] [] "bp-1" 100 ≠ .calibrated := by
  refine ⟨?_, rfl, by norm_num [c4Record], ?_⟩ <;>
    simp [check_calibration_status, lookupTable, c4Record, latest_record]

/-- C4 (amended): `check_calibration_status` returns unknown when the
device has no entry in the calibration-record dict, needs_calibration
when its record list is empty, unknown when the device is missing from
the manager's device table even if records exist, and otherwise the
latest record's status, overridden to needs_calibration when more days
than the device-type interval have passed since its calibration date. -/
theorem check_calibration_status_spec
    (cal : List (String × List CalibrationRecord))
    (devices : List (String × DriverEntry)) (id : String) (now : ℤ) :
    (lookupTable cal id = none → check_calibration_status cal devices id now = .unknown) ∧
    (lookupTable cal id = some [] →
      check_calibration_status cal devices id now = .needs_calibration) ∧
    (∀ r rs, lookupTable cal id = some (r :: rs) → lookupTable devices id = none →
      check_calibration_status cal devices id now = .unknown) ∧
    (∀ r rs dev, lookupTable cal id = some (r :: rs) → lookupTable devices id = some dev →
      ((calibration_intervals dev.device_type).getD 180 <
          now - (latest_record r rs).calibration_date →
        check_calibration_status cal devices id now = .needs_calibration) ∧
      (now - (latest_record r rs).calibration_date ≤
          (calibration_intervals dev.device_type).getD 180 →
        check_calibration_status cal devices id now = (latest_record r rs).status)) := by
  refine ⟨?_, ?_, ?_, ?_⟩
  · intro h
    simp [check_calibration_status, h]
  · intro h
    simp [check_calibration_status, h]
  · intro r rs h hd
    simp [check_calibration_status, h, hd]
  · intro r rs dev h hd
    constructor
    · intro hlt
      simp [check_calibration_status, h, hd, hlt]
    · intro hle
      simp [check_calibration_status, h, hd, not_lt.mpr hle]

def c4OldRecord : CalibrationRecord :=
  { device_id := "bp-2", calibration_date := 0, calibration_type := "user",
    reference_values := [], measured_values := [], deviation_values := [],
    status := .calibrated }

def c4Device : DriverEntry := { device_type := .blood_pressure, status := .connected }

theorem check_calibration_status_spec_witness :
    check_calibration_status [("bp-2", [c4OldRecord])] [("bp-2", c4Device)] "bp-2" 366 =
      .needs_calibration ∧
    c4OldRecord.status = .calibrated := by
  have h := (check_calibration_status_spec [("bp-2", [c4OldRecord])] [("bp-2", c4Device)]
    "bp-2" 366).2.2.2 c4OldRecord [] c4Device (by simp [lookupTable]) (by simp [lookupTable])
  refine ⟨h.1 ?_, rfl⟩
  norm_num [c4Device, c4OldRecord, calibration_intervals, latest_record]

/-- Average measured systolic over the field-complete readings, as in
`calibrate_blood_pressure_monitor` (`sum(...) / len(readings)`). -/
def bp_avg_systolic (reads : List (Option (ℚ × ℚ))) : ℚ :=
  let readings := reads.filterMap (fun o => o)
  (readings.map Prod.fst).sum / (readings.length : ℚ)

/-- Average measured diastolic over the field-complete readings. -/
def bp_avg_diastolic (reads : List (Option (ℚ × ℚ))) : ℚ :=
  let readings := reads.filterMap (fun o => o)
  (readings.map Prod.snd).sum / (readings.length : ℚ)

/-- `DeviceCalibrator.calibrate_blood_pressure_monitor`.  `reads` holds
the outcome of the five `device.read_data()` attempts: `some (s, d)`
when a reading arrived carrying both the systolic and diastolic fields,
`none` otherwise.  A missing or wrongly-typed device is the
`ValueError` raised before the procedure starts (`Except.error`); once
started, an insufficient sample count is caught and recorded in the
ledger, and the record is returned (`Except.ok`).  The deviation
thresholds are the `deviation_thresholds` entries for blood pressure
(systolic 3, diastolic 3, strict comparison). -/
def calibrate_blood_pressure_monitor
    (devices : List (String × DriverEntry))
    (cal : List (String × List CalibrationRecord))
    (device_id : String) (reference_systolic reference_diastolic : ℚ)
    (reads : List (Option (ℚ × ℚ))) (now : ℤ) :
    Except String (CalibrationRecord × List (String × List CalibrationRecord)) :=
  match lookupTable devices device_id with
  | none => .error "Invalid blood pressure device"
  | some dev =>
    if dev.device_type ≠ DeviceType.blood_pressure then .error "Invalid blood pressure device"
    else
      let readings := reads.filterMap (fun o => o)
      if readings.length < 3 then
        let failed : CalibrationRecord :=
          { device_id := device_id, calibration_date := now, calibration_type := "user",
            reference_values :=
              [("systolic", reference_systolic), ("diastolic", reference_diastolic)],
            measured_values := [], deviation_values := [],
            status := .calibration_failed,
            notes := some "Insufficient readings for calibration" }
        .ok (failed, updateTable cal device_id ((lookupTable cal device_id).getD [] ++ [failed]))
      else
        let avg_systolic := bp_avg_systolic reads
        let avg_diastolic := bp_avg_diastolic reads
        let systolic_deviation := |avg_systolic - reference_systolic|
        let diastolic_deviation := |avg_diastolic - reference_diastolic|
        let status := if 3 < systolic_deviation ∨ 3 < diastolic_deviation
          then CalibrationStatus.out_of_spec else CalibrationStatus.calibrated
        let finished : CalibrationRecord :=
          { device_id := device_id, calibration_date := now, calibration_type := "user",
            reference_values :=
              [("systolic", reference_systolic), ("diastolic", reference_diastolic)],
            measured_values := [("systolic", avg_systolic), ("diastolic", avg_diastolic)],
            deviation_values :=
              [("systolic", systolic_deviation), ("diastolic", diastolic_deviation)],
            status := status,
            next_calibration_due :=
              some (now + (calibration_intervals DeviceType.blood_pressure).getD 0) }
        .ok (finished,
          updateTable cal device_id ((lookupTable cal device_id).getD [] ++ [finished]))

/-- `DeviceCalibrator.calibrate_pulse_oximeter`: ten read attempts, at
least five field-complete readings required, thresholds spo2 2 and
pulse rate 3, interval 180 days.  `reads` holds `some (spo2, pulse)`
for each reading carrying both fields. -/
def calibrate_pulse_oximeter
    (devices : List (String × DriverEntry))
    (cal : List (String × List CalibrationRecord))
    (device_id : String) (reference_spo2 reference_pulse : ℚ)
    (reads : List (Option (ℚ × ℚ))) (now : ℤ) :
    Except String (CalibrationRecord × List (String × List CalibrationRecord)) :=
  match lookupTable devices device_id with
  | none => .error "Invalid pulse oximeter device"
  | some dev =>
    if dev.device_type ≠ DeviceType.pulse_oximeter then .error "Invalid pulse oximeter device"
    else
      let readings := reads.filterMap (fun o => o)
      if readings.length < 5 then
        let failed : CalibrationRecord :=
          { device_id := device_id, calibration_date := now, calibration_type := "user",
            reference_values := [("spo2", reference_spo2), ("pulse_rate", reference_pulse)],
            measured_values := [], deviation_values := [],
            status := .calibration_failed,
            notes := some "Insufficient readings for calibration" }
        .ok (failed, updateTable cal device_id ((lookupTable cal device_id).getD [] ++ [failed]))
      else
        let avg_spo2 := (readings.map Prod.fst).sum / (readings.length : ℚ)
        let avg_pulse := (readings.map Prod.snd).sum / (readings.length : ℚ)
        let spo2_deviation := |avg_spo2 - reference_spo2|
        let pulse_deviation := |avg_pulse - reference_pulse|
        let status := if 2 < spo2_deviation ∨ 3 < pulse_deviation
          then CalibrationStatus.out_of_spec else CalibrationStatus.calibrated
        let finished : CalibrationRecord :=
          { device_id := device_id, calibration_date := now, calibration_type := "user",
            reference_values := [("spo2", reference_spo2), ("pulse_rate", reference_pulse)],
            measured_values := [("spo2", avg_spo2), ("pulse_rate", avg_pulse)],
            deviation_values := [("spo2", spo2_deviation), ("pulse_rate", pulse_deviation)],
            status := status,
            next_calibration_due :=
              some (now + (calibration_intervals DeviceType.pulse_oximeter).getD 0) }
        .ok (finished,
          updateTable cal device_id ((lookupTable cal device_id).getD [] ++ [finished]))

/-- `DeviceCalibrator.get_calibration_history`. -/
def get_calibration_history (cal : List (String × List CalibrationRecord))
    (device_id : String) : List CalibrationRecord :=
  (lookupTable cal device_id).getD []

theorem get_calibration_history_updateTable (cal : List (String × List CalibrationRecord))
    (id : String) (rcd : CalibrationRecord) :
    get_calibration_history (updateTable cal id (get_calibration_history cal id ++ [rcd])) id =
      get_calibration_history cal id ++ [rcd] := by
  simp [get_calibration_history, lookupTable_updateTable_self]

theorem get_calibration_history_updateTable_other
    (cal : List (String × List CalibrationRecord)) (id other : String)
    (l : List CalibrationRecord) (h : other ≠ id) :
    get_calibration_history (updateTable cal id l) other = get_calibration_history cal other := by
  simp [get_calibration_history, lookupTable_updateTable_other cal id other l h]

/-- The error record built in the except-branch of
`calibrate_blood_pressure_monitor` when too few readings arrived. -/
def bp_failed_record (id : String) (now : ℤ) (refS refD : ℚ) : CalibrationRecord :=
  { device_id := id, calibration_date := now, calibration_type := "user",
    reference_values := [("systolic", refS), ("diastolic", refD)],
    measured_values := [], deviation_values := [],
    status := .calibration_failed,
    notes := some "Insufficient readings for calibration" }

/-- C2: a blood-pressure calibration run in which fewer than 3 of the 5
requested readings carry both required fields appends exactly one
record with status calibration_failed and a descriptive note, never
calibrated or out_of_spec, and the failure is returned rather than
raised. -/
theorem bp_calibration_insufficient_samples
    (devices : List (String × DriverEntry)) (cal : List (String × List CalibrationRecord))
    (id : String) (dev : DriverEntry) (refS refD : ℚ)
    (reads : List (Option (ℚ × ℚ))) (now : ℤ)
    (hdev : lookupTable devices id = some dev)
    (htype : dev.device_type = DeviceType.blood_pressure)
    (_hlen : reads.length = 5)
    (hcount : (reads.filterMap (fun o => o)).length < 3) :
    ∃ failed : CalibrationRecord,
      calibrate_blood_pressure_monitor devices cal id refS refD reads now =
        .ok (failed, updateTable cal id (get_calibration_history cal id ++ [failed])) ∧
      failed.status = .calibration_failed ∧
      failed.notes = some "Insufficient readings for calibration" ∧
      failed.status ≠ .calibrated ∧ failed.status ≠ .out_of_spec := by
  refine ⟨bp_failed_record id now refS refD, ?_, rfl, rfl,
    fun hx => CalibrationStatus.noConfusion hx, fun hx => CalibrationStatus.noConfusion hx⟩
  simp [calibrate_blood_pressure_monitor, bp_failed_record, hdev, htype, hcount,
    get_calibration_history]

def c2Dev : DriverEntry := { device_type := .blood_pressure, status := .connected }

def c2Devices : List (String × DriverEntry) := [("bp-3", c2Dev)]

def c2Reads : List (Option (ℚ × ℚ)) := [none, none, none, some (120, 80), some (118, 79)]

def c2Failed : CalibrationRecord :=
  { device_id := "bp-3", calibration_date := 10, calibration_type := "user",
    reference_values := [("systolic", 120), ("diastolic", 80)],
    measured_values := [], deviation_values := [],
    status := .calibration_failed, notes := some "Insufficient readings for calibration" }

theorem bp_calibration_insufficient_samples_witness :
    calibrate_blood_pressure_monitor c2Devices [] "bp-3" 120 80 c2Reads 10 =
      Except.ok (c2Failed, [("bp-3", [c2Failed])]) ∧
    c2Failed.status = CalibrationStatus.calibration_failed ∧
    c2Failed.status ≠ CalibrationStatus.calibrated := by
  have h0 : calibrate_blood_pressure_monitor c2Devices [] "bp-3" 120 80 c2Reads 10 =
      Except.ok (c2Failed, [("bp-3", [c2Failed])]) := by
    norm_num [calibrate_blood_pressure_monitor, c2Devices, c2Dev, c2Reads, c2Failed,
      lookupTable, updateTable, List.filterMap]
  obtain ⟨f, h1, h2, h3, h4, h5⟩ := bp_calibration_insufficient_samples c2Devices [] "bp-3"
    c2Dev 120 80 c2Reads 10 (by simp [c2Devices, lookupTable]) rfl rfl (by decide)
  have h6 := h0.symm.trans h1
  simp only [Except.ok.injEq, Prod.mk.injEq] at h6
  obtain ⟨hf, -⟩ := h6
  rw [← hf] at h2 h4
  exact ⟨h0, h2, h4⟩

/-- C3: on a blood-pressure calibration run that reaches averaging, the
status is out_of_spec iff the systolic or diastolic deviation strictly
exceeds 3; a systolic deviation of exactly 3 (diastolic within 3)
yields calibrated. -/
theorem bp_calibration_threshold_exclusive
    (devices : List (String × DriverEntry)) (cal : List (String × List CalibrationRecord))
    (id : String) (dev : DriverEntry) (refS refD : ℚ)
    (reads : List (Option (ℚ × ℚ))) (now : ℤ)
    (rcd : CalibrationRecord) (cal2 : List (String × List CalibrationRecord))
    (hdev : lookupTable devices id = some dev)
    (htype : dev.device_type = DeviceType.blood_pressure)
    (hcount : ¬ (reads.filterMap (fun o => o)).length < 3)
    (h : calibrate_blood_pressure_monitor devices cal id refS refD reads now = .ok (rcd, cal2)) :
    (rcd.status = .out_of_spec ↔
      3 < |bp_avg_systolic reads - refS| ∨ 3 < |bp_avg_diastolic reads - refD|) ∧
    (|bp_avg_systolic reads - refS| = 3 → |bp_avg_diastolic reads - refD| ≤ 3 →
      rcd.status = .calibrated) := by
  simp only [calibrate_blood_pressure_monitor, hdev, htype, hcount, ne_eq,
    not_true_eq_false, if_false, if_neg] at h
  simp only [Except.ok.injEq, Prod.mk.injEq] at h
  obtain ⟨hr, -⟩ := h
  have hst : rcd.status =
      (if 3 < |bp_avg_systolic reads - refS| ∨ 3 < |bp_avg_diastolic reads - refD|
        then CalibrationStatus.out_of_spec else CalibrationStatus.calibrated) := by
    rw [← hr]
  constructor
  · rw [hst]
    split_ifs with hc
    · simp [hc]
    · simp [hc]
  · intro h3 h3d
    rw [hst, if_neg]
    push_neg
    exact ⟨h3.le, h3d⟩

def c3Devices : List (String × DriverEntry) := [("bp-4", c2Dev)]

def c3Reads : List (Option (ℚ × ℚ)) :=
  [some (120, 80), some (120, 80), some (120, 80), none, none]

def c3Record : CalibrationRecord :=
  { device_id := "bp-4", calibration_date := 20, calibration_type := "user",
    reference_values := [("systolic", 117), ("diastolic", 80)],
    measured_values := [("systolic", 120), ("diastolic", 80)],
    deviation_values := [("systolic", 3), ("diastolic", 0)],
    status := .calibrated, next_calibration_due := some 385 }

theorem bp_calibration_threshold_exclusive_witness :
    calibrate_blood_pressure_monitor c3Devices [] "bp-4" 117 80 c3Reads 20 =
      Except.ok (c3Record, [("bp-4", [c3Record])]) ∧
    |bp_avg_systolic c3Reads - 117| = 3 ∧
    c3Record.status = CalibrationStatus.calibrated := by
  have habs : |bp_avg_systolic c3Reads - 117| = 3 := by
    norm_num [bp_avg_systolic, c3Reads, List.filterMap, abs_of_nonneg]
  have habsd : |bp_avg_diastolic c3Reads - 80| = 0 := by
    norm_num [bp_avg_diastolic, c3Reads, List.filterMap]
  have h0 : calibrate_blood_pressure_monitor c3Devices [] "bp-4" 117 80 c3Reads 20 =
      Except.ok (c3Record, [("bp-4", [c3Record])]) := by
    norm_num [calibrate_blood_pressure_monitor, c3Devices, c2Dev, c3Reads, c3Record,
      bp_avg_systolic, bp_avg_diastolic, lookupTable, updateTable, List.filterMap,
      calibration_intervals, abs_of_nonneg]
  refine ⟨h0, habs, ?_⟩
  exact (bp_calibration_threshold_exclusive c3Devices [] "bp-4" c2Dev 117 80 c3Reads 20
    c3Record [("bp-4", [c3Record])] (by simp [c3Devices, lookupTable]) rfl (by decide) h0).2
    habs (by rw [habsd]; norm_num)

/-- C9: every completed calibration run (blood pressure or pulse
oximeter; calibrated, out-of-spec or failed) appends exactly one record
to the device's ledger, leaves every other device's ledger untouched
(the history is a prefix-extension), and on a run that completed its
measurements sets next_calibration_due to the calibration date plus the
device-type interval (blood pressure 365 days, pulse oximetry 180). -/
theorem calibration_ledger_append_only
    (devices : List (String × DriverEntry)) (cal : List (String × List CalibrationRecord))
    (id : String) (refS refD refO refP : ℚ)
    (reads1 reads2 : List (Option (ℚ × ℚ))) (now : ℤ) :
    (∀ rcd cal2, calibrate_blood_pressure_monitor devices cal id refS refD reads1 now =
        .ok (rcd, cal2) →
      get_calibration_history cal2 id = get_calibration_history cal id ++ [rcd] ∧
      (∀ other, other ≠ id →
        get_calibration_history cal2 other = get_calibration_history cal other) ∧
      (rcd.status ≠ .calibration_failed →
        rcd.next_calibration_due = some (rcd.calibration_date + 365))) ∧
    (∀ rcd cal2, calibrate_pulse_oximeter devices cal id refO refP reads2 now =
        .ok (rcd, cal2) →
      get_calibration_history cal2 id = get_calibration_history cal id ++ [rcd] ∧
      (∀ other, other ≠ id →
        get_calibration_history cal2 other = get_calibration_history cal other) ∧
      (rcd.status ≠ .calibration_failed →
        rcd.next_calibration_due = some (rcd.calibration_date + 180))) := by
  constructor
  · intro rcd cal2 h
    cases hdev : lookupTable devices id with
    | none =>
        simp only [calibrate_blood_pressure_monitor, hdev] at h
        exact Except.noConfusion h
    | some dev =>
        simp only [calibrate_blood_pressure_monitor, hdev] at h
        split at h
        · exact Except.noConfusion h
        · split at h
          all_goals
            simp only [Except.ok.injEq, Prod.mk.injEq] at h
            obtain ⟨hr, hc⟩ := h
            subst hr
            subst hc
            refine ⟨get_calibration_history_updateTable cal id _, fun other ho =>
              get_calibration_history_updateTable_other cal id other _ ho, ?_⟩
          · intro hne
            exact absurd rfl hne
          · intro _
            rfl
  · intro rcd cal2 h
    cases hdev : lookupTable devices id with
    | none =>
        simp only [calibrate_pulse_oximeter, hdev] at h
        exact Except.noConfusion h
    | some dev =>
        simp only [calibrate_pulse_oximeter, hdev] at h
        split at h
        · exact Except.noConfusion h
        · split at h
          all_goals
            simp only [Except.ok.injEq, Prod.mk.injEq] at h
            obtain ⟨hr, hc⟩ := h
            subst hr
            subst hc
            refine ⟨get_calibration_history_updateTable cal id _, fun other ho =>
              get_calibration_history_updateTable_other cal id other _ ho, ?_⟩
          · intro hne
            exact absurd rfl hne
          · intro _
            rfl

def c9DevPO : DriverEntry := { device_type := .pulse_oximeter, status := .connected }

def c9Devices : List (String × DriverEntry) := [("bp-5", c2Dev), ("po-1", c9DevPO)]

def c9Prior : CalibrationRecord :=
  { device_id := "bp-5", calibration_date := 1, calibration_type := "user",
    reference_values := [], measured_values := [], deviation_values := [],
    status := .calibrated }

def c9Cal : List (String × List CalibrationRecord) := [("bp-5", [c9Prior])]

def c9ReadsBP : List (Option (ℚ × ℚ)) :=
  [some (120, 80), some (120, 80), some (120, 80), none, none]

def c9ReadsPO : List (Option (ℚ × ℚ)) :=
  [some (98, 70), some (98, 70), some (98, 70), some (98, 70), some (98, 70),
   none, none, none, none, none]

def c9RecordBP : CalibrationRecord :=
  { device_id := "bp-5", calibration_date := 50, calibration_type := "user",
    reference_values := [("systolic", 120), ("diastolic", 80)],
    measured_values := [("systolic", 120), ("diastolic", 80)],
    deviation_values := [("systolic", 0), ("diastolic", 0)],
    status := .calibrated, next_calibration_due := some 415 }

def c9RecordPO : CalibrationRecord :=
  { device_id := "po-1", calibration_date := 50, calibration_type := "user",
    reference_values := [("spo2", 97), ("pulse_rate", 68)],
    measured_values := [("spo2", 98), ("pulse_rate", 70)],
    deviation_values := [("spo2", 1), ("pulse_rate", 2)],
    status := .calibrated, next_calibration_due := some 230 }

theorem calibration_ledger_append_only_witness :
    get_calibration_history (updateTable c9Cal "bp-5"
        (get_calibration_history c9Cal "bp-5" ++ [c9RecordBP])) "bp-5" =
      [c9Prior, c9RecordBP] ∧
    c9RecordBP.next_calibration_due = some (c9RecordBP.calibration_date + 365) ∧
    get_calibration_history (updateTable c9Cal "po-1"
        (get_calibration_history c9Cal "po-1" ++ [c9RecordPO])) "po-1" =
      [c9RecordPO] ∧
    c9RecordPO.next_calibration_due = some (c9RecordPO.calibration_date + 180) := by
  have hbp : calibrate_blood_pressure_monitor c9Devices c9Cal "bp-5" 120 80 c9ReadsBP 50 =
      Except.ok (c9RecordBP, updateTable c9Cal "bp-5"
        (get_calibration_history c9Cal "bp-5" ++ [c9RecordBP])) := by
    norm_num [calibrate_blood_pressure_monitor, c9Devices, c2Dev, c9ReadsBP, c9RecordBP,
      bp_avg_systolic, bp_avg_diastolic, get_calibration_history,
      lookupTable, List.filterMap, calibration_intervals]
  have hlkd : lookupTable c9Devices "po-1" = some c9DevPO := by
    simp [c9Devices, lookupTable]
  have hpo : calibrate_pulse_oximeter c9Devices c9Cal "po-1" 97 68 c9ReadsPO 50 =
      Except.ok (c9RecordPO, updateTable c9Cal "po-1"
        (get_calibration_history c9Cal "po-1" ++ [c9RecordPO])) := by
    norm_num [calibrate_pulse_oximeter, hlkd, c9DevPO, c9ReadsPO, c9RecordPO,
      get_calibration_history, List.filterMap, calibration_intervals,
      abs_of_nonneg]
  have h1 := ((calibration_ledger_append_only c9Devices c9Cal "bp-5" 120 80 97 68
    c9ReadsBP c9ReadsPO 50).1 c9RecordBP _ hbp)
  have h2 := ((calibration_ledger_append_only c9Devices c9Cal "po-1" 120 80 97 68
    c9ReadsBP c9ReadsPO 50).2 c9RecordPO _ hpo)
  have hbp5 : lookupTable c9Cal "bp-5" = some [c9Prior] := by
    simp [c9Cal, lookupTable]
  have hpo1 : lookupTable c9Cal "po-1" = none := by
    simp [c9Cal, lookupTable]
  refine ⟨?_, h1.2.2 (by decide), ?_, h2.2.2 (by decide)⟩
  · rw [h1.1]
    simp [get_calibration_history, hbp5]
  · rw [h2.1]
    simp [get_calibration_history, hpo1]

/-- `HealthStatus` enum from `calibration.py`. -/
inductive HealthStatus where
  | healthy
  | warning
  | critical
  | offline
  | maintenance_required
  deriving DecidableEq

/-- The fields of `HealthMetrics` the monitor logic reads; timestamps
are integer hours. -/
structure HealthMetrics where
  device_id : String
  timestamp : ℤ
  quality_score : ℚ
  deriving DecidableEq

/-- The connection-state-derived quality score assigned in
`DeviceHealthMonitor._check_device_health`. -/
def connection_quality (s : DeviceStatus) : ℚ :=
  if s = .error then 0
  else if s = .disconnected then 0
  else if s = .connected then 8/10
  else 6/10

/-- The `HealthMetrics` sample built on one monitoring tick. -/
def tick_metric (device_id : String) (status : DeviceStatus) (now : ℤ) : HealthMetrics :=
  { device_id := device_id, timestamp := now, quality_score := connection_quality status }

/-- `DeviceHealthMonitor._check_device_health` for one device on one
monitoring tick: appends one sample scored from the connection state,
then keeps only samples newer than the 24-hour cutoff. -/
def check_device_health (tbl : List (String × List HealthMetrics))
    (device_id : String) (status : DeviceStatus) (now : ℤ) :
    List (String × List HealthMetrics) :=
  updateTable tbl device_id
    ((((lookupTable tbl device_id).getD []) ++ [tick_metric device_id status now]).filter
      (fun m => now - 24 < m.timestamp))

/-- The quality-score-to-status mapping at the end of
`DeviceHealthMonitor.get_device_health`. -/
def health_from_score (q : ℚ) : HealthStatus :=
  if 8/10 ≤ q then .healthy
  else if 6/10 ≤ q then .warning
  else .critical

/-- `DeviceHealthMonitor.get_device_health`. -/
def get_device_health (tbl : List (String × List HealthMetrics))
    (device_id : String) : HealthStatus :=
  match lookupTable tbl device_id with
  | none => .offline
  | some recent_metrics =>
    match recent_metrics.getLast? with
    | none => .offline
    | some latest_metric => health_from_score latest_metric.quality_score

theorem getLast?_append_singleton {α : Type} (l : List α) (a : α) :
    (l ++ [a]).getLast? = some a := by
  induction l with
  | nil => rfl
  | cons x xs ih =>
      cases hxs : xs ++ [a] with
      | nil => exact absurd hxs (by simp)
      | cons y ys =>
          rw [List.cons_append, hxs, List.getLast?_cons_cons, ← hxs, ih]

/-- C6: a monitoring tick scores a device 0 in the error or disconnected
states, 0.8 when connected and 0.6 in any other state, storing that
sample last; `get_device_health` then maps the most recent sample to
healthy (≥ 0.8), warning (≥ 0.6) or critical, and reports offline for a
device with no samples at all. -/
theorem device_health_mapping (tbl : List (String × List HealthMetrics))
    (id : String) (st : DeviceStatus) (now : ℤ) :
    ((lookupTable (check_device_health tbl id st now) id).bind List.getLast? =
      some (tick_metric id st now)) ∧
    ((tick_metric id st now).quality_score =
      (if st = .error ∨ st = .disconnected then 0
       else if st = .connected then 8/10 else 6/10)) ∧
    (get_device_health (check_device_health tbl id st now) id =
      (if st = .error ∨ st = .disconnected then HealthStatus.critical
       else if st = .connected then .healthy else .warning)) ∧
    ((lookupTable tbl id = none ∨ lookupTable tbl id = some []) →
      get_device_health tbl id = .offline) := by
  have hq : (tick_metric id st now).quality_score =
      (if st = .error ∨ st = .disconnected then 0
        else if st = .connected then 8/10 else 6/10) := by
    show connection_quality st = _
    unfold connection_quality
    by_cases he : st = .error
    · simp [he]
    · by_cases hd : st = .disconnected
      · simp [hd]
      · simp [he, hd]
  have hlk : lookupTable (check_device_health tbl id st now) id =
      some ((((lookupTable tbl id).getD []) ++ [tick_metric id st now]).filter
        (fun m => now - 24 < m.timestamp)) :=
    lookupTable_updateTable_self tbl id _
  have hsingle : List.filter (fun m => decide (now - 24 < m.timestamp))
      [tick_metric id st now] = [tick_metric id st now] := by
    simp [tick_metric]
  have hfil : ((((lookupTable tbl id).getD []) ++ [tick_metric id st now]).filter
        (fun m => now - 24 < m.timestamp)) =
      (((lookupTable tbl id).getD []).filter (fun m => now - 24 < m.timestamp)) ++
        [tick_metric id st now] := by
    rw [List.filter_append, hsingle]
  have hlast : ((((lookupTable tbl id).getD []) ++ [tick_metric id st now]).filter
      (fun m => now - 24 < m.timestamp)).getLast? = some (tick_metric id st now) := by
    rw [hfil]
    exact getLast?_append_singleton _ _
  refine ⟨?_, hq, ?_, ?_⟩
  · rw [hlk]
    exact hlast
  · unfold get_device_health
    rw [hlk]
    dsimp only
    rw [hlast]
    dsimp only
    rw [hq]
    by_cases hp : st = .error ∨ st = .disconnected
    · rw [if_pos hp, if_pos hp]
      unfold health_from_score
      norm_num
    · rw [if_neg hp, if_neg hp]
      by_cases hc : st = .connected
      · rw [if_pos hc, if_pos hc]
        unfold health_from_score
        norm_num
      · rw [if_neg hc, if_neg hc]
        unfold health_from_score
        norm_num
  · intro hcase
    unfold get_device_health
    rcases hcase with hn | he
    · rw [hn]
    · rw [he]
      rfl

theorem device_health_mapping_witness :
    get_device_health (check_device_health [] "d6" DeviceStatus.connected 0) "d6" =
      HealthStatus.healthy ∧
    get_device_health [] "d6" = HealthStatus.offline := by
  have h := device_health_mapping [] "d6" DeviceStatus.connected 0
  refine ⟨?_, h.2.2.2 (Or.inl rfl)⟩
  have h2 := h.2.2.1
  simpa using h2

/-- The monitor state relevant to C7: `monitoring_active` is the flag
set by start/stop; `loop_task_count` counts the live `_monitoring_loop`
tasks (`asyncio.create_task` spawns one, and a loop task only exits
after observing `monitoring_active = false` at the top of its while
loop, so with the flag held true no task exits between two starts). -/
structure MonitorState where
  monitoring_active : Bool
  loop_task_count : Nat
  deriving DecidableEq

/-- `DeviceHealthMonitor.start_monitoring`: sets the flag and
unconditionally spawns a new monitoring-loop task. -/
def start_monitoring (s : MonitorState) : MonitorState :=
  { monitoring_active := true, loop_task_count := s.loop_task_count + 1 }

/-- `DeviceHealthMonitor.stop_monitoring`: only clears the flag; running
loop tasks observe it at the top of their while loop. -/
def stop_monitoring (s : MonitorState) : MonitorState :=
  { s with monitoring_active := false }

/-- The freshly constructed `DeviceHealthMonitor`. -/
def monitor_initial : MonitorState :=
  { monitoring_active := false, loop_task_count := 0 }

/-- C7 (code bug): `start_monitoring` has no guard on
`monitoring_active`, so calling it twice spawns a second concurrent
monitoring loop — two live loop tasks, contradicting the claim that at
most one exists. -/
theorem start_monitoring_double_spawn :
    (start_monitoring monitor_initial).monitoring_active = true ∧
    (start_monitoring (start_monitoring monitor_initial)).loop_task_count = 2 ∧
    ¬ (start_monitoring (start_monitoring monitor_initial)).loop_task_count ≤ 1 := by
  decide

/-- The `BleakClient` surface the drivers read: `is_connected`. -/
structure ClientState where
  is_connected : Bool
  deriving DecidableEq

/-- A driver's connection-relevant state: `status` and the optional BLE
client (`None` until `connect()` constructs one). -/
structure DriverConnection where
  status : DeviceStatus
  client : Option ClientState
  deriving DecidableEq

/-- `BloodPressureDriver.disconnect` and `PulseOximeterDriver.disconnect`
(identical control flow): only when a client exists and reports
connected are notifications stopped and the transport disconnected;
`teardown_ok` tells whether those awaited BLE calls complete without
raising.  On an exception the status assignment is never reached, so
the state is left as it was. -/
def driver_disconnect (s : DriverConnection) (teardown_ok : Bool) : DriverConnection :=
  match s.client with
  | none => s
  | some c =>
    if c.is_connected then
      if teardown_ok then
        { status := DeviceStatus.disconnected, client := some { is_connected := false } }
      else s
    else s

/-- C8 counterexample: a driver left in the error state by a failed
connect attempt (a client object exists but is not connected) keeps
status error after `disconnect()` — it does not reach disconnected. -/
theorem driver_disconnect_counterexample :
    (driver_disconnect
        { status := .error, client := some { is_connected := false } } true).status =
      DeviceStatus.error ∧
    (driver_disconnect
        { status := .error, client := some { is_connected := false } } true).status ≠
      DeviceStatus.disconnected := by
  decide

/-- C8 (amended): `disconnect()` transitions to disconnected exactly when
the driver holds a client that reports connected and the BLE teardown
succeeds; with no client, a non-connected client, or a teardown
exception the state is unchanged.  A second disconnect after a
successful one is a no-op, so the success path is idempotent. -/
theorem driver_disconnect_spec (s : DriverConnection) (ok ok2 : Bool) :
    (∀ c, s.client = some c → c.is_connected = true → ok = true →
      driver_disconnect s ok =
        { status := .disconnected, client := some { is_connected := false } }) ∧
    (s.client = none → driver_disconnect s ok = s) ∧
    (∀ c, s.client = some c → c.is_connected = false → driver_disconnect s ok = s) ∧
    (∀ c, s.client = some c → c.is_connected = true → ok = false →
      driver_disconnect s ok = s) ∧
    (∀ c, s.client = some c → c.is_connected = true → ok = true →
      driver_disconnect (driver_disconnect s ok) ok2 = driver_disconnect s ok) := by
  refine ⟨?_, ?_, ?_, ?_, ?_⟩
  · intro c hc hconn hok
    simp [driver_disconnect, hc, hconn, hok]
  · intro hc
    simp [driver_disconnect, hc]
  · intro c hc hconn
    simp [driver_disconnect, hc, hconn]
  · intro c hc hconn hok
    simp [driver_disconnect, hc, hconn, hok]
  · intro c hc hconn hok
    simp [driver_disconnect, hc, hconn, hok]

def c8Connected : DriverConnection :=
  { status := .connected, client := some { is_connected := true } }

theorem driver_disconnect_spec_witness :
    (driver_disconnect c8Connected true).status = DeviceStatus.disconnected ∧
    driver_disconnect (driver_disconnect c8Connected true) true =
      driver_disconnect c8Connected true := by
  have h := driver_disconnect_spec c8Connected true true
  refine ⟨?_, h.2.2.2.2 { is_connected := true } rfl rfl rfl⟩
  rw [h.1 { is_connected := true } rfl rfl rfl]

/-- Outcome of `driver.connect()` as observed by
`DeviceManager.connect_device`: True, False, or an exception caught by
the surrounding try block (e.g. the base driver's NotImplementedError). -/
inductive ConnectOutcome where
  | success
  | failure
  | raised
  deriving DecidableEq

/-- `DeviceManager.connect_device`: the driver is stored in the device
table only after `connect()` returns True (a successful connect leaves
the driver status connected); a False return or an exception yields
False and the table is left untouched. -/
def connect_device (devices : List (String × DriverEntry)) (device_id : String)
    (device_type : DeviceType) (outcome : ConnectOutcome) :
    Bool × List (String × DriverEntry) :=
  match outcome with
  | .success =>
      (true, updateTable devices device_id { device_type := device_type, status := .connected })
  | .failure => (false, devices)
  | .raised => (false, devices)

/-- C10: `connect_device` adds the device-table entry exactly when
`connect()` returns True; when it returns False or raises, the call
returns False and the device table is unchanged. -/
theorem connect_device_table_spec (devices : List (String × DriverEntry))
    (id : String) (t : DeviceType) (outcome : ConnectOutcome) :
    (outcome = .success →
      (connect_device devices id t outcome).1 = true ∧
      lookupTable (connect_device devices id t outcome).2 id =
        some { device_type := t, status := DeviceStatus.connected } ∧
      (∀ other, other ≠ id →
        lookupTable (connect_device devices id t outcome).2 other =
          lookupTable devices other)) ∧
    (outcome ≠ .success →
      connect_device devices id t outcome = (false, devices)) := by
  constructor
  · intro ho
    subst ho
    exact ⟨rfl, lookupTable_updateTable_self devices id _,
      fun other hother => lookupTable_updateTable_other devices id other _ hother⟩
  · intro ho
    cases outcome with
    | success => exact absurd rfl ho
    | failure => rfl
    | raised => rfl

theorem connect_device_table_spec_witness :
    (connect_device [] "dev-1" DeviceType.thermometer ConnectOutcome.success).1 = true ∧
    lookupTable (connect_device [] "dev-1" DeviceType.thermometer ConnectOutcome.success).2
        "dev-1" =
      some { device_type := DeviceType.thermometer, status := DeviceStatus.connected } ∧
    connect_device [] "dev-1" DeviceType.thermometer ConnectOutcome.failure = (false, []) := by
  have h := connect_device_table_spec [] "dev-1" DeviceType.thermometer ConnectOutcome.success
  have h2 := connect_device_table_spec [] "dev-1" DeviceType.thermometer ConnectOutcome.failure
  obtain ⟨hb, hl, -⟩ := h.1 rfl
  exact ⟨hb, hl, h2.2 (fun hx => ConnectOutcome.noConfusion hx)⟩

end TriWare
